import Mathlib

/-!
Verification development for the kubexit process supervisor.

Shallow embedding of the coordination engine:
- signals and the signal-forwarding loop (pkg/supervisor/supervisor.go),
- the child supervisor shutdown state machine (pkg/supervisor/supervisor.go),
- the tombstone record, its serialization, write and read (pkg/tombstone),
- the death-dependency handler (cmd/kubexit/main.go, onDeathOfAny),
- the engine run (cmd/kubexit/main.go, runApp / fatalf / waitForBirthDeps /
  waitForChildExit).

Machine effects (filesystem, clock, OS signals, kubernetes API) are made
explicit as parameters and oracles; control flow follows the Go source.
-/

namespace Kubexit

/-! Signals. `other n` stands for every signal other than the four the
source mentions by name. -/

inductive Sig where
  | term
  | kill
  | chld
  | urg
  | other (n : Nat)
deriving DecidableEq

/-- Signal-forwarding loop body, pkg/supervisor/supervisor.go lines 56-80.
For each received signal, in order: trace it unless it is URG; drop it
without forwarding if it is CHLD; otherwise forward it to the child.
Returns (signals forwarded to the child, signals traced), both in
reception order. -/
def signalLoop : List Sig → List Sig × List Sig
  | [] => ([], [])
  | s :: rest =>
    let p := signalLoop rest
    (if s = Sig.chld then p.1 else s :: p.1,
     if s = Sig.urg then p.2 else s :: p.2)

/-! Child supervisor state, pkg/supervisor/supervisor.go.
`processSet` models `cmd.Process != nil` (set by Start);
`processStateSet` models `cmd.ProcessState != nil` (set by Wait);
`timerSet` models `shutdownTimer != nil`. -/

structure SupState where
  processSet : Bool
  processStateSet : Bool
  timerSet : Bool
deriving DecidableEq

/-- Supervisor.isRunning, supervisor.go lines 143-149. -/
def isRunning (s : SupState) : Bool :=
  s.processSet && !s.processStateSet

/-- Result of a shutdown call: the new supervisor state, the signal that
was delivered to the child (if any), and whether an error was returned. -/
structure ShutdownResult where
  state : SupState
  sent : Option Sig
  err : Bool
deriving DecidableEq

/-- Supervisor.ShutdownNow, supervisor.go lines 98-112. `sigFails` is an
oracle for `cmd.Process.Signal` failing. -/
def shutdownNow (sigFails : Bool) (s : SupState) : ShutdownResult :=
  if !isRunning s then ⟨s, none, false⟩
  else if sigFails then ⟨s, none, true⟩
  else ⟨s, some Sig.kill, false⟩

/-- Supervisor.ShutdownWithTimeout, supervisor.go lines 114-141. Checks
isRunning first, then the one-shot timer latch, then sends TERM and arms
the timer. -/
def shutdownWithTimeout (sigFails : Bool) (s : SupState) : ShutdownResult :=
  if !isRunning s then ⟨s, none, false⟩
  else if s.timerSet then ⟨s, none, true⟩
  else if sigFails then ⟨s, none, true⟩
  else ⟨{ s with timerSet := true }, some Sig.term, false⟩

/-- A shutdown call made against the supervisor, with its signal-delivery
oracle. -/
inductive ShutCall where
  | now (sigFails : Bool)
  | withTimeout (sigFails : Bool)
deriving DecidableEq

/-- Run a sequence of shutdown calls, threading the supervisor state;
returns the final state and, per call, (signal sent, error flag). -/
def runShutCalls (s : SupState) : List ShutCall → SupState × List (Option Sig × Bool)
  | [] => (s, [])
  | c :: rest =>
    let r := match c with
      | ShutCall.now f => shutdownNow f s
      | ShutCall.withTimeout f => shutdownWithTimeout f s
    let q := runShutCalls r.state rest
    (q.1, (r.sent, r.err) :: q.2)

/-! Tombstone record, pkg/tombstone (src/unnamed/part_000 lines 108-119).
Timestamps are modelled as naturals. -/

structure TRec where
  born : Option Nat
  died : Option Nat
  exitCode : Option Int
deriving DecidableEq

/-- Tombstone.RecordBirth field update, part_000 lines 152-154: sets Born
to the current time (before attempting the write). -/
def recordBirth (t : TRec) (now : Nat) : TRec :=
  { t with born := some now }

/-- Tombstone.RecordDeath field update, part_000 lines 164-168: sets Died
to the current time and ExitCode to the captured code (before attempting
the write). -/
def recordDeath (t : TRec) (now : Nat) (code : Int) : TRec :=
  { t with died := some now, exitCode := some code }

/-! Serialization, part_000 line 144: `yaml.Marshal(t)` via the struct's
json tags. Born, Died, ExitCode carry `json:",omitempty"` (keyed by the
Go field names); Context, Graveyard, Name are tagged `json:"-"` and never
serialized. A document is a keyed list of values. -/

inductive Val where
  | vtime (n : Nat)
  | vint (n : Int)
deriving DecidableEq

/-- Serialized form of a tombstone: fields in struct order, nil pointers
omitted (omitempty). -/
def serializeTomb (t : TRec) : List (String × Val) :=
  (match t.born with
    | some b => [("Born", Val.vtime b)]
    | none => []) ++
  (match t.died with
    | some d => [("Died", Val.vtime d)]
    | none => []) ++
  (match t.exitCode with
    | some c => [("ExitCode", Val.vint c)]
    | none => [])

/-- Unmarshal one optional timestamp field: an absent key leaves the field
nil, a key of the wrong shape is a parse failure. -/
def getTimeField (doc : List (String × Val)) (key : String) : Option (Option Nat) :=
  match doc.lookup key with
  | none => some none
  | some (Val.vtime n) => some (some n)
  | some _ => none

/-- Unmarshal one optional integer field. -/
def getIntField (doc : List (String × Val)) (key : String) : Option (Option Int) :=
  match doc.lookup key with
  | none => some none
  | some (Val.vint n) => some (some n)
  | some _ => none

/-- yaml.Unmarshal into a fresh Tombstone, part_000 line 199: recover the
three semantic fields; unknown keys are tolerated (never consulted). -/
def deserializeTomb (doc : List (String × Val)) : Option TRec :=
  match getTimeField doc "Born", getTimeField doc "Died", getIntField doc "ExitCode" with
  | some b, some d, some c => some ⟨b, d, c⟩
  | _, _, _ => none

/-! Filesystem model: an association list from paths to documents; a
fresh write shadows older entries. -/

abbrev Fs := List (String × List (String × Val))

def fsInsert (fs : Fs) (p : String) (doc : List (String × Val)) : Fs :=
  (p, doc) :: fs

def fsLookup (fs : Fs) (p : String) : Option (List (String × Val)) :=
  List.lookup p fs

/-- Tombstone.Path, part_000 lines 121-123: filepath.Join of graveyard
and name. -/
def tombPath (graveyard name : String) : String :=
  graveyard ++ "/" ++ name

/-- Failure points inside Tombstone.Write, part_000 lines 127-150:
`os.MkdirAll`, `os.Create`, `yaml.Marshal` each may fail and are
reported; the final `file.Write(pretty)` may also fail but its result is
discarded by the source (`_, _ = file.Write(pretty)`). -/
structure WriteEnv where
  mkdirFails : Bool
  createFails : Bool
  marshalFails : Bool
  dataWriteFails : Bool
deriving DecidableEq

inductive WriteErr where
  | mkdir
  | create
  | marshal
deriving DecidableEq

/-- Tombstone.Write, part_000 lines 127-150. MkdirAll failure and Create
failure leave the filesystem unchanged and report an error; once Create
succeeds the file is truncated to empty; a Marshal failure reports an
error with the file left empty; a failure of the data write leaves the
file empty but is NOT reported — the function returns success. -/
def tombWrite (e : WriteEnv) (fs : Fs) (graveyard name : String) (t : TRec) :
    Option WriteErr × Fs :=
  if e.mkdirFails then (some WriteErr.mkdir, fs)
  else if e.createFails then (some WriteErr.create, fs)
  else if e.marshalFails then (some WriteErr.marshal, fsInsert fs (tombPath graveyard name) [])
  else if e.dataWriteFails then (none, fsInsert fs (tombPath graveyard name) [])
  else (none, fsInsert fs (tombPath graveyard name) (serializeTomb t))

inductive ReadErr where
  | notFound
  | malformed
deriving DecidableEq

/-- tombstone.Read, part_000 lines 188-205: ReadFile then yaml.Unmarshal.
Note that unmarshalling an empty document succeeds and yields the zero
record (all fields nil). -/
def tombRead (fs : Fs) (graveyard name : String) : Except ReadErr TRec :=
  match fsLookup fs (tombPath graveyard name) with
  | none => Except.error ReadErr.notFound
  | some doc =>
    match deserializeTomb doc with
    | none => Except.error ReadErr.malformed
    | some t => Except.ok t

/-! Death-dependency handler, cmd/kubexit/main.go lines 309-343. -/

/-- filepath.Base: the final path component (tombstone event paths carry
no trailing slash). -/
def baseName (p : String) : String :=
  ((p.toList.reverse.takeWhile (fun c => c != '/')).reverse).asString

/-- An fsnotify event: whether its Op bitmask contains the Create bit or
the Write bit, and the full path (e.Name). -/
structure FsEvent where
  opCreate : Bool
  opWrite : Bool
  name : String
deriving DecidableEq

/-- Outcome of the tombstone.Read the handler performs (an oracle: peers
write the graveyard concurrently). -/
inductive ReadResult where
  | failure
  | ok (t : TRec)
deriving DecidableEq

/-- One invocation of the handler built by onDeathOfAny (main.go lines
309-343) against supervisor state `s`. The callback (main.go lines
86-96) cancels the graveyard watcher and calls ShutdownWithTimeout.
Returns (new supervisor state, whether a TERM was delivered, whether the
handler returned an error). -/
def onDeathOfAny (deathDeps : List String) (ev : FsEvent) (rd : ReadResult)
    (sigFails : Bool) (s : SupState) : SupState × Bool × Bool :=
  if !(ev.opCreate || ev.opWrite) then (s, false, false)
  else if !(deathDeps.contains (baseName ev.name)) then (s, false, false)
  else
    match rd with
    | ReadResult.failure => (s, false, true)
    | ReadResult.ok t =>
      match t.died with
      | none => (s, false, false)
      | some _ =>
        let r := shutdownWithTimeout sigFails s
        (r.state, r.sent == some Sig.term, r.err)

/-- One step in the supervisor's lifetime as seen by the graveyard
watcher: a filesystem event handled by onDeathOfAny, or the child being
started or reaped. -/
inductive LifeStep where
  | fs (ev : FsEvent) (rd : ReadResult) (sigFails : Bool)
  | childStart
  | childExit
deriving DecidableEq

/-- Run a sequence of lifetime steps from supervisor state `s`; returns
the final state and, per step, whether that step delivered a TERM. -/
def runLife (deathDeps : List String) (s : SupState) :
    List LifeStep → SupState × List Bool
  | [] => (s, [])
  | step :: rest =>
    let p : SupState × Bool := match step with
      | LifeStep.fs ev rd f =>
        let r := onDeathOfAny deathDeps ev rd f s
        (r.1, r.2.1)
      | LifeStep.childStart => ({ s with processSet := true }, false)
      | LifeStep.childExit => ({ s with processStateSet := true }, false)
    let q := runLife deathDeps p.1 rest
    (q.1, p.2 :: q.2)

/-! Engine, cmd/kubexit/main.go. -/

/-- Outcome of child.Wait(), main.go line 210: nil error, a typed
*exec.ExitError carrying an OS exit status, or any other error. -/
inductive WaitOutcome where
  | noError
  | exitError (status : Int)
  | otherError
deriving DecidableEq

/-- waitForChildExit, main.go lines 208-221: a typed exit error yields
its status, any other error yields -1, a nil error yields 0. -/
def waitForChildExit : WaitOutcome → Int
  | WaitOutcome.noError => 0
  | WaitOutcome.exitError status => status
  | WaitOutcome.otherError => -1

/-- How the birth-wait context got resolved, main.go lines 148-179: the
ready-callback cancelled it, a TERM signal cancelled it (via
withCancelOnSignal, lines 150 and 182-205), or the birth timeout
elapsed. -/
inductive BirthWaitCause where
  | allReady
  | termSignal
  | timedOut
deriving DecidableEq

/-- waitForBirthDeps, main.go lines 148-179: returns true iff an error is
returned. A synchronous WatchPod failure is an error; a DeadlineExceeded
resolution is an error; a Canceled resolution — whether the cancel came
from the ready-callback or from a TERM signal — is treated as success. -/
def waitForBirthDeps (watchPodErr : Bool) (cause : BirthWaitCause) : Bool :=
  if watchPodErr then true
  else
    match cause with
    | BirthWaitCause.timedOut => true
    | BirthWaitCause.termSignal => false
    | BirthWaitCause.allReady => false

/-- Observable outcome of fatalf, main.go lines 226-265. -/
structure FatalResult where
  exitCode : Int
  waitCalled : Bool
  deathWriteAttempted : Bool
  capturedCode : Option Int
  writes : List TRec
deriving DecidableEq

/-- fatalf, main.go lines 226-265. `childStarted` says whether
child.Start() had succeeded; `t` is the in-memory tombstone record at the
time of the call. ShutdownNow is a no-op when the child is not running;
if it errors, fatalf wraps the error and returns 1 immediately. Otherwise
waitForChildExit reaps the child (Wait on a never-started child returns a
non-exit error, hence -1) and RecordDeath is attempted; a RecordDeath
failure is wrapped. Every path returns exit code 1. `writes` lists the
tombstone records whose write succeeded. -/
def fatalf (childStarted : Bool) (shutSigFails : Bool) (w : WaitOutcome)
    (t : TRec) (deathWriteErr : Bool) (deathTime : Nat) : FatalResult :=
  let stopErr := isRunning ⟨childStarted, false, false⟩ && shutSigFails
  if stopErr then ⟨1, false, false, none, []⟩
  else
    let code := waitForChildExit (if childStarted then w else WaitOutcome.otherError)
    let t' := recordDeath t deathTime code
    if deathWriteErr then ⟨1, true, true, some code, []⟩
    else ⟨1, true, true, some code, [t']⟩

/-- Inputs and effect oracles for one run of the engine. -/
structure RunInput where
  argsEmpty : Bool
  hasDeathDeps : Bool
  watchGraveyardErr : Bool
  hasBirthDeps : Bool
  watchPodErr : Bool
  birthWaitCause : BirthWaitCause
  startErr : Bool
  birthWriteErr : Bool
  birthTime : Nat
  childWait : WaitOutcome
  deathWriteErr : Bool
  deathTime : Nat
  verboseLevel : Nat
  serializeErr : Bool
  fatalShutdownSigFails : Bool
  fatalChildWait : WaitOutcome
  fatalDeathWriteErr : Bool
  fatalDeathTime : Nat
deriving DecidableEq

/-- Observable outcome of runApp: the process exit code, whether
child.Start() succeeded, whether child.Wait() returned, the code captured
by waitForChildExit (when Wait returned), and the tombstone records
successfully written to disk, in order. -/
structure RunResult where
  exitCode : Int
  childStarted : Bool
  waitReturned : Bool
  capturedCode : Option Int
  writes : List TRec
deriving DecidableEq

/-- runApp, main.go lines 45-146. Empty argv returns 2. A graveyard-watch
setup failure, a birth-wait error, a child.Start failure and a
RecordBirth failure go to fatalf. Otherwise the child is awaited,
RecordDeath is attempted — its failure logs the error and returns 2 — and
a trace-serialization failure under verbose also returns 2; else the
captured child code is returned. RecordBirth (part_000 lines 152-162)
sets Born in memory before writing, so a fatalf after a failed birth
write still carries the Born field. -/
def runApp (i : RunInput) : RunResult :=
  if i.argsEmpty then ⟨2, false, false, none, []⟩
  else
    let t0 : TRec := ⟨none, none, none⟩
    if i.hasDeathDeps && i.watchGraveyardErr then
      let f := fatalf false i.fatalShutdownSigFails i.fatalChildWait t0
        i.fatalDeathWriteErr i.fatalDeathTime
      ⟨f.exitCode, false, f.waitCalled, f.capturedCode, f.writes⟩
    else if i.hasBirthDeps && waitForBirthDeps i.watchPodErr i.birthWaitCause then
      let f := fatalf false i.fatalShutdownSigFails i.fatalChildWait t0
        i.fatalDeathWriteErr i.fatalDeathTime
      ⟨f.exitCode, false, f.waitCalled, f.capturedCode, f.writes⟩
    else if i.startErr then
      let f := fatalf false i.fatalShutdownSigFails i.fatalChildWait t0
        i.fatalDeathWriteErr i.fatalDeathTime
      ⟨f.exitCode, false, f.waitCalled, f.capturedCode, f.writes⟩
    else
      let tBirth := recordBirth t0 i.birthTime
      if i.birthWriteErr then
        let f := fatalf true i.fatalShutdownSigFails i.fatalChildWait tBirth
          i.fatalDeathWriteErr i.fatalDeathTime
        ⟨f.exitCode, true, f.waitCalled, f.capturedCode, f.writes⟩
      else
        let code := waitForChildExit i.childWait
        let tDeath := recordDeath tBirth i.deathTime code
        if i.deathWriteErr then ⟨2, true, true, some code, [tBirth]⟩
        else if i.verboseLevel > 0 && i.serializeErr then
          ⟨2, true, true, some code, [tBirth, tDeath]⟩
        else ⟨code, true, true, some code, [tBirth, tDeath]⟩

/-! Theorems. -/

/-- Helper: the supervisor's forwarding loop forwards exactly the non-CHLD
signals, in order. -/
theorem signalLoop_forwarded (l : List Sig) :
    (signalLoop l).1 = l.filter (fun s => s != Sig.chld) := by
  induction l with
  | nil => rfl
  | cons s rest ih =>
    by_cases h : s = Sig.chld <;> simp [signalLoop, ih, h, List.filter_cons]

/-- Helper: the supervisor's forwarding loop traces exactly the non-URG
signals, in order. -/
theorem signalLoop_traced (l : List Sig) :
    (signalLoop l).2 = l.filter (fun s => s != Sig.urg) := by
  induction l with
  | nil => rfl
  | cons s rest ih =>
    by_cases h : s = Sig.urg <;> simp [signalLoop, ih, h, List.filter_cons]

/-- Claim C5: exit-code capture is the total function mapping a typed exit
error to its carried OS status, any other non-nil error to -1, and a nil
error to 0. -/
theorem c5_exit_code_capture :
    (∀ status : Int, waitForChildExit (WaitOutcome.exitError status) = status) ∧
    waitForChildExit WaitOutcome.otherError = -1 ∧
    waitForChildExit WaitOutcome.noError = 0 :=
  ⟨fun _ => rfl, rfl, rfl⟩

/-- Claim C9: the signal-forwarding loop never forwards CHLD: the signals
delivered to the child are exactly the received sequence with all CHLD
occurrences removed; URG signals are forwarded whenever received but
never produce a trace record. -/
theorem c9_signal_forwarding :
    (∀ l : List Sig, (signalLoop l).1 = l.filter (fun s => s != Sig.chld)) ∧
    (∀ l : List Sig, Sig.urg ∈ l → Sig.urg ∈ (signalLoop l).1) ∧
    (∀ l : List Sig, Sig.urg ∉ (signalLoop l).2) := by
  refine ⟨signalLoop_forwarded, ?_, ?_⟩
  · intro l hm
    rw [signalLoop_forwarded]
    simp [List.mem_filter, hm]
  · intro l hm
    rw [signalLoop_traced] at hm
    simp [List.mem_filter] at hm

/-- Witness for C9: a concrete reception sequence containing both CHLD and
URG. -/
theorem c9_signal_forwarding_witness :
    Sig.urg ∈ [Sig.chld, Sig.urg, Sig.term] ∧
    (signalLoop [Sig.chld, Sig.urg, Sig.term]).1 = [Sig.urg, Sig.term] ∧
    Sig.urg ∈ (signalLoop [Sig.chld, Sig.urg, Sig.term]).1 ∧
    Sig.urg ∉ (signalLoop [Sig.chld, Sig.urg, Sig.term]).2 :=
  ⟨by decide, by decide,
   c9_signal_forwarding.2.1 [Sig.chld, Sig.urg, Sig.term] (by decide),
   c9_signal_forwarding.2.2 [Sig.chld, Sig.urg, Sig.term]⟩

/-- Claim C8: round-trip — for every tombstone, with arbitrary (present or
absent) born, died and exit-code fields, a fault-free write followed by a
read of the same (graveyard, name) key succeeds and returns a record
equal on the three semantic fields. -/
theorem c8_roundtrip :
    ∀ (fs : Fs) (g n : String) (born died : Option Nat) (code : Option Int),
      tombRead (tombWrite ⟨false, false, false, false⟩ fs g n ⟨born, died, code⟩).2 g n
        = Except.ok ⟨born, died, code⟩ := by
  intro fs g n born died code
  cases born <;> cases died <;> cases code <;>
    simp [tombWrite, tombRead, fsInsert, fsLookup, serializeTomb, deserializeTomb,
      getTimeField, getIntField, List.lookup]

/-- Claim C10: the result of writing the serialized bytes to the file is
discarded by Tombstone.Write, so whether the data write fails has no
effect on the reported outcome; with only the data write failing, a
record-death write reports success while the on-disk file is empty, even
though the serialized record is never empty. The only reportable failures
are directory creation, file creation and serialization. -/
theorem c10_write_discards_data_error :
    (∀ (e : WriteEnv) (fs : Fs) (g n : String) (t : TRec),
      (tombWrite e fs g n t).1 = (tombWrite { e with dataWriteFails := false } fs g n t).1) ∧
    (∀ (fs : Fs) (g n : String) (t : TRec) (now : Nat) (code : Int),
      (tombWrite ⟨false, false, false, true⟩ fs g n (recordDeath t now code)).1 = none ∧
      fsLookup (tombWrite ⟨false, false, false, true⟩ fs g n (recordDeath t now code)).2
        (tombPath g n) = some [] ∧
      serializeTomb (recordDeath t now code) ≠ []) := by
  constructor
  · intro e fs g n t
    rcases e with ⟨m, c, ms, d⟩
    cases m <;> cases c <;> cases ms <;> cases d <;> simp [tombWrite]
  · intro fs g n t now code
    refine ⟨by simp [tombWrite], by simp [tombWrite, fsInsert, fsLookup, List.lookup], ?_⟩
    rcases t with ⟨b, d, ec⟩
    cases b <;> simp [recordDeath, serializeTomb]

/-- Witness for C10: on an empty filesystem, a record-death write whose
data write fails reports success, leaves an empty file, and loses a
non-empty serialized record. -/
theorem c10_write_discards_witness :
    (tombWrite ⟨false, false, false, true⟩ ([] : Fs) "g" "n"
      (recordDeath ⟨none, none, none⟩ 9 (-1))).1 = none ∧
    fsLookup (tombWrite ⟨false, false, false, true⟩ ([] : Fs) "g" "n"
      (recordDeath ⟨none, none, none⟩ 9 (-1))).2 (tombPath "g" "n") = some [] ∧
    serializeTomb (recordDeath ⟨none, none, none⟩ 9 (-1)) ≠ [] :=
  c10_write_discards_data_error.2 ([] : Fs) "g" "n" ⟨none, none, none⟩ 9 (-1)

/-- Claim C7: once the child has been spawned and reaped, every subsequent
shutdown call — ShutdownNow or ShutdownWithTimeout, in any number and
order, with any signal-delivery oracle, and whether or not a graceful
shutdown had previously armed the timer — returns without error, sends no
signal, and leaves the supervisor state unchanged. -/
theorem c7_shutdown_idempotent_after_exit (s : SupState)
    (_h1 : s.processSet = true) (h2 : s.processStateSet = true) :
    ∀ calls : List ShutCall,
      (runShutCalls s calls).1 = s ∧
      ∀ r ∈ (runShutCalls s calls).2, r = (none, false) := by
  have hrun : isRunning s = false := by simp [isRunning, h2]
  intro calls
  induction calls with
  | nil => simp [runShutCalls]
  | cons c rest ih =>
    cases c with
    | now f =>
      simpa [runShutCalls, shutdownNow, hrun] using ih
    | withTimeout f =>
      simpa [runShutCalls, shutdownWithTimeout, hrun] using ih

/-- Witness for C7: a supervisor whose child exited with the graceful
timer already armed; three further shutdown calls are all silent no-ops. -/
theorem c7_shutdown_idempotent_witness :
    (SupState.mk true true true).processSet = true ∧
    (SupState.mk true true true).processStateSet = true ∧
    ((runShutCalls ⟨true, true, true⟩
        [ShutCall.now false, ShutCall.withTimeout false, ShutCall.now true]).1
      = ⟨true, true, true⟩ ∧
     ∀ r ∈ (runShutCalls ⟨true, true, true⟩
        [ShutCall.now false, ShutCall.withTimeout false, ShutCall.now true]).2,
       r = (none, false)) :=
  ⟨rfl, rfl,
   c7_shutdown_idempotent_after_exit ⟨true, true, true⟩ rfl rfl
     [ShutCall.now false, ShutCall.withTimeout false, ShutCall.now true]⟩

/-- Helper: a death-handler invocation that delivers a TERM leaves the
shutdown timer armed. -/
theorem onDeathOfAny_term_sets_timer (deps : List String) (ev : FsEvent)
    (rd : ReadResult) (f : Bool) (s : SupState) :
    (onDeathOfAny deps ev rd f s).2.1 = true →
      (onDeathOfAny deps ev rd f s).1.timerSet = true := by
  unfold onDeathOfAny
  split
  · simp
  · split
    · simp
    · cases rd with
      | failure => simp
      | ok t =>
        cases h : t.died with
        | none => simp [h]
        | some d =>
          simp only [h]
          unfold shutdownWithTimeout
          split
          · simp
          · split
            · simp
            · split <;> simp

/-- Helper: with the timer already armed, ShutdownWithTimeout leaves the
state unchanged and sends nothing (it either no-ops or rejects with
AlreadyShuttingDown). -/
theorem shutdownWithTimeout_timerSet (f : Bool) (s : SupState)
    (h : s.timerSet = true) :
    (shutdownWithTimeout f s).state = s ∧ (shutdownWithTimeout f s).sent = none := by
  unfold shutdownWithTimeout
  split
  · exact ⟨rfl, rfl⟩
  · simp [h]

/-- Helper: with the shutdown timer already armed, a death-handler
invocation delivers no TERM and keeps the timer armed. -/
theorem onDeathOfAny_timerSet (deps : List String) (ev : FsEvent)
    (rd : ReadResult) (f : Bool) (s : SupState) (h : s.timerSet = true) :
    (onDeathOfAny deps ev rd f s).1.timerSet = true ∧
    (onDeathOfAny deps ev rd f s).2.1 = false := by
  unfold onDeathOfAny
  split
  · simp [h]
  · split
    · simp [h]
    · cases rd with
      | failure => simp [h]
      | ok t =>
        cases hd : t.died with
        | none => simp [hd, h]
        | some d =>
          have hs := shutdownWithTimeout_timerSet f s h
          simp [hd, hs.1, hs.2, h]

/-- Helper: once the timer is armed, no later lifetime step delivers a
TERM. -/
theorem runLife_no_term_of_timerSet (deps : List String) :
    ∀ (steps : List LifeStep) (s : SupState), s.timerSet = true →
      ∀ b ∈ (runLife deps s steps).2, b = false := by
  intro steps
  induction steps with
  | nil => intro s _ b hb; simp [runLife] at hb
  | cons step rest ih =>
    intro s hs b hb
    cases step with
    | fs ev rd f =>
      have hstep := onDeathOfAny_timerSet deps ev rd f s hs
      simp only [runLife, List.mem_cons] at hb
      rcases hb with hb | hb
      · rw [hb]; exact hstep.2
      · exact ih _ hstep.1 b hb
    | childStart =>
      simp only [runLife, List.mem_cons] at hb
      rcases hb with hb | hb
      · exact hb
      · exact ih { s with processSet := true } hs b hb
    | childExit =>
      simp only [runLife, List.mem_cons] at hb
      rcases hb with hb | hb
      · exact hb
      · exact ih { s with processStateSet := true } hs b hb

/-- Helper: across any sequence of lifetime steps, at most one step
delivers a TERM. -/
theorem runLife_term_at_most_once (deps : List String) :
    ∀ (steps : List LifeStep) (s : SupState),
      ((runLife deps s steps).2.count true) ≤ 1 := by
  intro steps
  induction steps with
  | nil => intro s; simp [runLife]
  | cons step rest ih =>
    intro s
    cases step with
    | fs ev rd f =>
      simp only [runLife]
      by_cases hsent : (onDeathOfAny deps ev rd f s).2.1 = true
      · have htimer := onDeathOfAny_term_sets_timer deps ev rd f s hsent
        have hrest := runLife_no_term_of_timerSet deps rest
          (onDeathOfAny deps ev rd f s).1 htimer
        have hzero : ((runLife deps (onDeathOfAny deps ev rd f s).1 rest).2.count true) = 0 := by
          rw [List.count_eq_zero]
          intro hmem
          exact absurd (hrest true hmem) (by simp)
        simp [hsent, List.count_cons, hzero]
      · have hf : (onDeathOfAny deps ev rd f s).2.1 = false := by
          simpa using hsent
        simpa [hf, List.count_cons] using ih (onDeathOfAny deps ev rd f s).1
    | childStart =>
      simpa [runLife, List.count_cons] using ih { s with processSet := true }
    | childExit =>
      simpa [runLife, List.count_cons] using ih { s with processStateSet := true }

/-- Claim C6: across the supervisor's whole lifetime the death handler
delivers TERM (fires the graceful shutdown) at most once; and an event
whose operation is neither create nor write, whose name is not a death
dependency, whose tombstone cannot be read, or whose record has died
unset, never triggers a shutdown. -/
theorem c6_on_death_at_most_once :
    (∀ (deps : List String) (s : SupState) (steps : List LifeStep),
      ((runLife deps s steps).2.count true) ≤ 1) ∧
    (∀ (deps : List String) (ev : FsEvent) (rd : ReadResult) (f : Bool) (s : SupState),
      ((ev.opCreate || ev.opWrite) = false ∨
       deps.contains (baseName ev.name) = false ∨
       rd = ReadResult.failure ∨
       (∃ t, rd = ReadResult.ok t ∧ t.died = none)) →
      (onDeathOfAny deps ev rd f s).2.1 = false) := by
  constructor
  · intro deps s steps
    exact runLife_term_at_most_once deps steps s
  · intro deps ev rd f s h
    rcases h with h | h | h | ⟨t, ht, hd⟩
    · simp [onDeathOfAny, h]
    · have h' : baseName ev.name ∉ deps := by
        simpa using h
      unfold onDeathOfAny
      split
      · rfl
      · simp [h']
    · subst h
      unfold onDeathOfAny
      split
      · rfl
      · split
        · rfl
        · rfl
    · subst ht
      unfold onDeathOfAny
      split
      · rfl
      · split
        · rfl
        · simp [hd]

/-- Witness for C6: two successive death events for the same dependency
deliver at most one TERM, and a non-dependency tombstone event triggers
nothing. -/
theorem c6_on_death_witness :
    ((runLife ["app"] ⟨true, false, false⟩
        [LifeStep.fs ⟨false, true, "/graveyard/app"⟩ (ReadResult.ok ⟨some 1, some 2, some 0⟩) false,
         LifeStep.fs ⟨false, true, "/graveyard/app"⟩ (ReadResult.ok ⟨some 1, some 2, some 0⟩) false]).2.count true) ≤ 1 ∧
    (["app"] : List String).contains (baseName "/graveyard/other") = false ∧
    (onDeathOfAny ["app"] ⟨false, true, "/graveyard/other"⟩
      (ReadResult.ok ⟨some 1, some 2, some 0⟩) false ⟨true, false, false⟩).2.1 = false :=
  ⟨c6_on_death_at_most_once.1 ["app"] ⟨true, false, false⟩ _,
   by decide,
   c6_on_death_at_most_once.2 ["app"] ⟨false, true, "/graveyard/other"⟩
     (ReadResult.ok ⟨some 1, some 2, some 0⟩) false ⟨true, false, false⟩
     (Or.inr (Or.inl (by decide)))⟩

/-- Helper: fatalf returns exit code 1 on every path. -/
theorem fatalf_exitCode (childStarted shutSigFails : Bool) (w : WaitOutcome)
    (t : TRec) (dwe : Bool) (dt : Nat) :
    (fatalf childStarted shutSigFails w t dwe dt).exitCode = 1 := by
  cases childStarted <;> cases shutSigFails <;> cases dwe <;>
    simp [fatalf, isRunning]

/-- Claim C1 counterexample: a run in which the child exits with code 7
and the death-record write then fails. The engine logs the failure and
returns 2 — which is neither the child's own code 7 nor the claimed
terminal engine error code 1 (cmd/kubexit/main.go lines 129-133 return
2). -/
theorem c1_counterexample :
    (runApp ⟨false, false, false, false, false, BirthWaitCause.allReady, false,
      false, 3, WaitOutcome.exitError 7, true, 5, 0, false, false,
      WaitOutcome.noError, false, 0⟩).waitReturned = true ∧
    (runApp ⟨false, false, false, false, false, BirthWaitCause.allReady, false,
      false, 3, WaitOutcome.exitError 7, true, 5, 0, false, false,
      WaitOutcome.noError, false, 0⟩).capturedCode = some 7 ∧
    (runApp ⟨false, false, false, false, false, BirthWaitCause.allReady, false,
      false, 3, WaitOutcome.exitError 7, true, 5, 0, false, false,
      WaitOutcome.noError, false, 0⟩).exitCode = 2 := by
  decide

/-- Claim C1 as amended: in every run in which child.wait returned, the
engine's exit code is the captured child code, or 1 (the fatal path), or
2 (a death-record write failure or a verbose trace-serialization failure
on the normal path); in particular a death-record write failure on the
normal path yields 2, not the child's code. -/
theorem c1_amended (i : RunInput) (h : (runApp i).waitReturned = true) :
    some ((runApp i).exitCode) = (runApp i).capturedCode ∨
    (runApp i).exitCode = 1 ∨ (runApp i).exitCode = 2 := by
  unfold runApp at h ⊢
  split_ifs at h ⊢ <;>
    first
      | (simp only []
         exact Or.inr (Or.inl (fatalf_exitCode _ _ _ _ _ _)))
      | simp_all

/-- Witness for C1 as amended: the counterexample run, where the code is
2. -/
theorem c1_amended_witness :
    (runApp ⟨false, false, false, false, false, BirthWaitCause.allReady, false,
      false, 3, WaitOutcome.exitError 7, true, 5, 0, false, false,
      WaitOutcome.noError, false, 0⟩).waitReturned = true ∧
    (some ((runApp ⟨false, false, false, false, false, BirthWaitCause.allReady, false,
      false, 3, WaitOutcome.exitError 7, true, 5, 0, false, false,
      WaitOutcome.noError, false, 0⟩).exitCode)
        = (runApp ⟨false, false, false, false, false, BirthWaitCause.allReady, false,
      false, 3, WaitOutcome.exitError 7, true, 5, 0, false, false,
      WaitOutcome.noError, false, 0⟩).capturedCode ∨
     (runApp ⟨false, false, false, false, false, BirthWaitCause.allReady, false,
      false, 3, WaitOutcome.exitError 7, true, 5, 0, false, false,
      WaitOutcome.noError, false, 0⟩).exitCode = 1 ∨
     (runApp ⟨false, false, false, false, false, BirthWaitCause.allReady, false,
      false, 3, WaitOutcome.exitError 7, true, 5, 0, false, false,
      WaitOutcome.noError, false, 0⟩).exitCode = 2) :=
  ⟨by decide,
   c1_amended ⟨false, false, false, false, false, BirthWaitCause.allReady, false,
     false, 3, WaitOutcome.exitError 7, true, 5, 0, false, false,
     WaitOutcome.noError, false, 0⟩ (by decide)⟩

/-- Claim C2, evaluated at the failing input: a run with birth
dependencies in which a TERM signal cancels the birth-wait and nothing
else fails. waitForBirthDeps treats the cancellation as success
(main.go lines 168-175 ignore context.Canceled regardless of whether the
cancel came from TERM or from the ready-callback), so runApp proceeds to
child.Start() (line 117): the child IS started, a birth tombstone IS
written, and the run completes with the child's code — contradicting the
stated (and intended, per the "trigger graceful exit" comment at main.go
line 149) behavior of exiting cleanly without starting the child. -/
theorem c2_term_during_birth_wait :
    waitForBirthDeps false BirthWaitCause.termSignal = false ∧
    (runApp ⟨false, false, false, true, false, BirthWaitCause.termSignal, false,
      false, 3, WaitOutcome.noError, false, 5, 0, false, false,
      WaitOutcome.noError, false, 0⟩).childStarted = true ∧
    (runApp ⟨false, false, false, true, false, BirthWaitCause.termSignal, false,
      false, 3, WaitOutcome.noError, false, 5, 0, false, false,
      WaitOutcome.noError, false, 0⟩).writes
      = [⟨some 3, none, none⟩, ⟨some 3, some 5, some 0⟩] := by
  decide

/-- Claim C3 counterexample: a run whose birth-wait times out. fatalf
attempts RecordDeath even though RecordBirth was never called (main.go
lines 256-258), so the engine writes a tombstone record whose died field
is set while born is nil — refuting the invariant as stated for every
written record. -/
theorem c3_counterexample :
    (runApp ⟨false, false, false, true, false, BirthWaitCause.timedOut, false,
      false, 3, WaitOutcome.noError, false, 5, 0, false, false,
      WaitOutcome.otherError, false, 9⟩).writes
      = [⟨none, some 9, some (-1)⟩] ∧
    (⟨none, some 9, some (-1)⟩ : TRec).died = some 9 ∧
    (⟨none, some 9, some (-1)⟩ : TRec).born = none := by
  decide

/-- Claim C3 as amended: on the normal path — RecordBirth at time t1
followed by RecordDeath at time t2 with a monotone clock (t1 ≤ t2) — the
pair (born, died) moves (none, none) → (some t1, none) →
(some t1, some t2) with t1 ≤ t2; on the fatal path before birth, a death
record with born unset may be written. -/
theorem c3_amended (t1 t2 : Nat) (code : Int) (h : t1 ≤ t2) :
    (TRec.born ⟨none, none, none⟩ = none ∧ TRec.died ⟨none, none, none⟩ = none) ∧
    ((recordBirth ⟨none, none, none⟩ t1).born = some t1 ∧
     (recordBirth ⟨none, none, none⟩ t1).died = none) ∧
    ((recordDeath (recordBirth ⟨none, none, none⟩ t1) t2 code).born = some t1 ∧
     (recordDeath (recordBirth ⟨none, none, none⟩ t1) t2 code).died = some t2 ∧
     t1 ≤ t2) := by
  exact ⟨⟨rfl, rfl⟩, ⟨rfl, rfl⟩, ⟨rfl, rfl, h⟩⟩

/-- Witness for C3 as amended: the chain at times 3 and 5 with exit code
0. -/
theorem c3_amended_witness :
    3 ≤ 5 ∧
    ((TRec.born ⟨none, none, none⟩ = none ∧ TRec.died ⟨none, none, none⟩ = none) ∧
     ((recordBirth ⟨none, none, none⟩ 3).born = some 3 ∧
      (recordBirth ⟨none, none, none⟩ 3).died = none) ∧
     ((recordDeath (recordBirth ⟨none, none, none⟩ 3) 5 0).born = some 3 ∧
      (recordDeath (recordBirth ⟨none, none, none⟩ 3) 5 0).died = some 5 ∧
      3 ≤ 5)) :=
  ⟨by decide, c3_amended 3 5 0 (by decide)⟩

/-- Claim C4 counterexample: a fatal invocation with the child started in
which ShutdownNow fails. fatalf wraps the error and returns 1
immediately (main.go lines 246-250) — neither child.Wait nor RecordDeath
is reached, refuting "both the wait step and the record_death attempt
occur" for every fatal invocation. -/
theorem c4_counterexample :
    (fatalf true true WaitOutcome.noError ⟨some 3, none, none⟩ false 9).exitCode = 1 ∧
    (fatalf true true WaitOutcome.noError ⟨some 3, none, none⟩ false 9).waitCalled = false ∧
    (fatalf true true WaitOutcome.noError ⟨some 3, none, none⟩ false 9).deathWriteAttempted
      = false := by
  decide

/-- Claim C4 as amended: every fatal invocation returns exactly 1; when
shutdown_force does not fail (in particular whenever the child was never
started), the wait step and the record_death attempt both occur; when
shutdown_force or record_death fail, their errors are wrapped into the
original error and the code remains 1. -/
theorem c4_amended (childStarted shutSigFails : Bool) (w : WaitOutcome)
    (t : TRec) (dwe : Bool) (dt : Nat) :
    (fatalf childStarted shutSigFails w t dwe dt).exitCode = 1 ∧
    ((childStarted && shutSigFails) = false →
      (fatalf childStarted shutSigFails w t dwe dt).waitCalled = true ∧
      (fatalf childStarted shutSigFails w t dwe dt).deathWriteAttempted = true) := by
  cases childStarted <;> cases shutSigFails <;> cases dwe <;>
    simp [fatalf, isRunning]

/-- Witness for C4 as amended: a fatal invocation before the child was
started (birth-wait timeout shape) waits, attempts record-death, and
returns 1. -/
theorem c4_amended_witness :
    ((false && false) = false) ∧
    (fatalf false false WaitOutcome.noError ⟨none, none, none⟩ false 9).exitCode = 1 ∧
    ((fatalf false false WaitOutcome.noError ⟨none, none, none⟩ false 9).waitCalled = true ∧
     (fatalf false false WaitOutcome.noError ⟨none, none, none⟩ false 9).deathWriteAttempted
       = true) :=
  ⟨by decide,
   (c4_amended false false WaitOutcome.noError ⟨none, none, none⟩ false 9).1,
   (c4_amended false false WaitOutcome.noError ⟨none, none, none⟩ false 9).2 (by decide)⟩

end Kubexit
